import Mathlib

/-
Shallow embedding of the Modbus RTU transport/recovery layer of
cstbox/ext-modbus (lib/python/pycstbox/modbus.py).

Modelling choices:
- Bytes are `Nat` values (each < 256 in well-formed buffers); buffers are
  `List Nat`.
- The underlying driver call `minimalmodbus.Instrument.read_string` is an
  external collaborator; its outcome is supplied as a `DriverResult` value:
  it returns a byte buffer, or raises `IOError`, or raises `ValueError`
  (how minimalmodbus reports CRC failures).  Exception causes are opaque
  and modelled as `Nat` identifiers.
- Side effects on the serial channel (flushes, close/open, sleeps) and the
  read call itself are recorded in an ordered `List Action` trace.
  `time.sleep(self.poll_req_interval)` and the fixed `time.sleep(0.1)`
  (100 ms settle) are recorded as distinct sleep actions.
- The mutable attributes set by `RTUModbusHWDevice.__init__` form
  `DeviceState`; every operation returns its trace, the successor state and
  its result, so that state changes (or their absence) are explicit.
- Python's `struct.unpack_from` is modelled for the format strings arising
  here ('h', 'H', 'i', 'I', optionally prefixed by '>' or '<'): a format
  with no byte-order prefix uses the host's native order, which is passed
  explicitly as a `ByteOrder` argument.
-/

namespace ExtModbus

/-- Byte order for the struct codec.  A Python struct format string may carry
an explicit order prefix ('>' big-endian, '<' little-endian); without one,
struct uses the host's native order. -/
inductive ByteOrder where
| big
| little
deriving DecidableEq, Repr

/-- `ModbusRegister`: the namedtuple `(addr, size, cfgreg, signed)` whose
overridden `__new__` supplies the defaults `size=1, cfgreg=False,
signed=False` (modbus.py lines 57-69). -/
structure ModbusRegister where
  addr : Nat
  size : Nat := 1
  cfgreg : Bool := false
  signed : Bool := false
deriving DecidableEq, Repr

/-- Python `str.lower()` on the one-character format strings used here. -/
def pyLower (s : String) : String := String.mk (s.data.map Char.toLower)

/-- `ModbusRegister.unpack_format` (modbus.py lines 81-87):
`fmt = 'H' if self.size == 1 else 'I'`, lower-cased when `self.signed`. -/
def ModbusRegister.unpackFormat (r : ModbusRegister) : String :=
  let fmt := if r.size = 1 then "H" else "I"
  if r.signed then pyLower fmt else fmt

/-- The mutable attributes of `RTUModbusHWDevice` set in `__init__`
(modbus.py lines 98-118), plus the open/closed state of the shared serial
channel (`self.serial`). -/
structure DeviceState where
  unitId : Nat
  firstPoll : Bool
  pollReqInterval : Nat
  retries : Nat
  terminate : Bool
  communicationError : Bool
  totalReads : Nat
  totalErrors : Nat
  serialOpen : Bool
deriving DecidableEq, Repr

/-- `RTUModbusHWDevice.DEFAULT_RETRIES` (modbus.py line 95). -/
def DEFAULT_RETRIES : Nat := 3

/-- `RTUModbusHWDevice.STATS_INTERVAL` (modbus.py line 96). -/
def STATS_INTERVAL : Nat := 1000

/-- State after `RTUModbusHWDevice.__init__` (modbus.py lines 105-116):
`_first_poll = True`, `poll_req_interval = 0`, `terminate = False`,
`communication_error = False`, `total_reads = 0`, `total_errors = 0`.
Whether the serial channel is open after `Instrument.__init__` is an
external fact, passed in. -/
def initState (unitId : Nat) (retries : Nat) (serialOpen : Bool) : DeviceState :=
  { unitId := unitId
    firstPoll := true
    pollReqInterval := 0
    retries := retries
    terminate := false
    communicationError := false
    totalReads := 0
    totalErrors := 0
    serialOpen := serialOpen }

/-- Outcome of the underlying `Instrument.read_string` call: a byte buffer,
or an `IOError` (communication failure), or a `ValueError` (how
minimalmodbus reports CRC failures). -/
inductive DriverResult where
| ok (data : List Nat)
| ioError (cause : Nat)
| valueError (cause : Nat)
deriving DecidableEq, Repr

/-- The classified errors raised by `RTUModbusHWDevice._read_registers`
(modbus.py lines 140-143): `CommunicationError(unit_id, cause)` and
`CRCError(unit_id, cause)`. -/
inductive ReadError where
| communicationError (unitId : Nat) (cause : Nat)
| crcError (unitId : Nat) (cause : Nat)
deriving DecidableEq, Repr

/-- Observable side effects on the serial channel, in order of occurrence.
`sleepPollInterval` stands for `time.sleep(self.poll_req_interval)` and
`sleepSettle100ms` for the fixed `time.sleep(0.1)` in
`reset_communications`. -/
inductive Action where
| flushInput
| flushOutput
| closePort
| openPort
| sleepPollInterval
| sleepSettle100ms
| readCall (startAddr : Nat) (regCount : Nat)
| logWarning
deriving DecidableEq, Repr

/-- `RTUModbusHWDevice._read_registers` (modbus.py lines 125-145): if the
serial channel is open, flush input then output; then call `read_string`;
on `IOError` raise `CommunicationError(self.unit_id, e)`, on `ValueError`
raise `CRCError(self.unit_id, e)`, otherwise return the data.  The result
type admits `none` because the docstring types the return as "data or
None"; the code never produces `none`.  No device-state attribute is
touched. -/
def readRegisters (st : DeviceState) (startAddr : Nat) (regCount : Nat)
    (driver : DriverResult) :
    List Action × DeviceState × Except ReadError (Option (List Nat)) :=
  let pre : List Action :=
    if st.serialOpen then [Action.flushInput, Action.flushOutput] else []
  let trace := pre ++ [Action.readCall startAddr regCount]
  match driver with
  | DriverResult.ok data => (trace, st, Except.ok (some data))
  | DriverResult.ioError cause =>
      (trace, st, Except.error (ReadError.communicationError st.unitId cause))
  | DriverResult.valueError cause =>
      (trace, st, Except.error (ReadError.crcError st.unitId cause))

/-- `RTUModbusHWDevice.reset_communications` (modbus.py lines 152-158):
close, sleep `poll_req_interval`, open, sleep 0.1 s, flush input, flush
output. -/
def resetCommunications (st : DeviceState) : List Action × DeviceState :=
  ([Action.closePort, Action.sleepPollInterval, Action.openPort,
    Action.sleepSettle100ms, Action.flushInput, Action.flushOutput],
   { st with serialOpen := true })

/-- `RTUModbusHWDevice.reset_device` (modbus.py lines 160-161): the default
device-specific reset hook does nothing. -/
def resetDevice (st : DeviceState) : List Action × DeviceState := ([], st)

/-- `RTUModbusHWDevice.reset` (modbus.py lines 147-150): log a warning, then
`reset_communications()`, then `reset_device()`. -/
def reset (st : DeviceState) : List Action × DeviceState :=
  let rc := resetCommunications st
  let rd := resetDevice rc.2
  (Action.logWarning :: rc.1 ++ rd.1, rd.2)

/-- Interpretation of a single struct format character as used here:
'H'/'h' are 16-bit unsigned/signed, 'I'/'i' are 32-bit unsigned/signed;
`order = none` means native byte order. -/
structure StructFmt where
  order : Option ByteOrder
  sgn : Bool
  nbytes : Nat
deriving DecidableEq, Repr

/-- Format-character table for the codes used by this module. -/
def charFmt (c : Char) : Option StructFmt :=
  if c = 'H' then some { order := none, sgn := false, nbytes := 2 }
  else if c = 'h' then some { order := none, sgn := true, nbytes := 2 }
  else if c = 'I' then some { order := none, sgn := false, nbytes := 4 }
  else if c = 'i' then some { order := none, sgn := true, nbytes := 4 }
  else none

/-- Parse a struct format string: an optional '>' (big-endian) or '<'
(little-endian) prefix followed by one format character. -/
def parseFmt (s : String) : Option StructFmt :=
  match s.data with
  | ['>', c] => (charFmt c).map (fun f => { f with order := some ByteOrder.big })
  | ['<', c] => (charFmt c).map (fun f => { f with order := some ByteOrder.little })
  | [c] => charFmt c
  | _ => none

/-- Big-endian value of a byte list. -/
def bytesToNatBE (bs : List Nat) : Nat :=
  bs.foldl (fun acc b => acc * 256 + b % 256) 0

/-- Two's-complement reinterpretation of an `nbytes`-wide unsigned value. -/
def toSigned (n : Nat) (nbytes : Nat) : Int :=
  if n < 2 ^ (8 * nbytes - 1) then (n : Int) else (n : Int) - 2 ^ (8 * nbytes)

/-- `struct.unpack_from(fmt, data)` for the single-value formats used by
this module, returning the first unpacked value; `none` models a raised
`struct.error` (bad format or buffer shorter than the format needs).
A format without an order prefix follows `hostOrder`, the machine's native
byte order. -/
def structUnpackFrom (fmt : String) (hostOrder : ByteOrder) (data : List Nat) :
    Option Int :=
  match parseFmt fmt with
  | none => none
  | some f =>
    if f.nbytes ≤ data.length then
      let bs := data.take f.nbytes
      let u := match f.order.getD hostOrder with
        | ByteOrder.big => bytesToNatBE bs
        | ByteOrder.little => bytesToNatBE bs.reverse
      some (if f.sgn then toSigned u f.nbytes else (u : Int))
    else none

/-- Result of `RTUModbusHWDevice.unpack_registers`: the unpacked value, or
one of the exceptions that can escape it (`CommunicationError`, `CRCError`,
`HalError('read register failed ...')`, or `struct.error`). -/
inductive UnpackResult where
| ok (v : Int)
| commErr (unitId : Nat) (cause : Nat)
| crcErr (unitId : Nat) (cause : Nat)
| halErr (startAddr : Nat) (regCount : Nat)
| structErr
deriving DecidableEq, Repr

/-- `RTUModbusHWDevice.unpack_registers` (modbus.py lines 163-177):
`data = self._read_registers(start_register.addr, reg_count)`; if `data is
None` raise `HalError('read register failed ...')`; else return
`struct.unpack_from(unpack_format, data)`.  Classified errors raised by
`_read_registers` propagate through unchanged. -/
def unpackRegisters (st : DeviceState) (startRegister : ModbusRegister)
    (regCount : Nat) (unpackFmt : String) (hostOrder : ByteOrder)
    (driver : DriverResult) : UnpackResult :=
  let startAddr := startRegister.addr
  match (readRegisters st startAddr regCount driver).2.2 with
  | Except.error (ReadError.communicationError u c) => UnpackResult.commErr u c
  | Except.error (ReadError.crcError u c) => UnpackResult.crcErr u c
  | Except.ok none => UnpackResult.halErr startAddr regCount
  | Except.ok (some data) =>
    match structUnpackFrom unpackFmt hostOrder data with
    | some v => UnpackResult.ok v
    | none => UnpackResult.structErr

/-- Claim C1, counterexample: with a fresh device (retries = 3, so attempts
remain out of the retry budget) whose first attempt raises a CRC fault,
`_read_registers` performs exactly one read call with no recovery action
(no close, no reopen) and raises `CRCError` immediately instead of
recovering and retrying as the claim states. -/
theorem C1_counterexample :
    (readRegisters (initState 1 3 true) 0 1 (DriverResult.valueError 0)).1 =
      [Action.flushInput, Action.flushOutput, Action.readCall 0 1] ∧
    Action.closePort ∉ (readRegisters (initState 1 3 true) 0 1 (DriverResult.valueError 0)).1 ∧
    Action.openPort ∉ (readRegisters (initState 1 3 true) 0 1 (DriverResult.valueError 0)).1 ∧
    (readRegisters (initState 1 3 true) 0 1 (DriverResult.valueError 0)).2.2 =
      Except.error (ReadError.crcError 1 0) :=
  ⟨rfl, by decide, by decide, rfl⟩

/-- Claim C1 (amended): a logical read whose single underlying attempt
succeeds returns the raw data and leaves the whole device state — in
particular `communication_error` — unchanged; on a fault the read raises
the classified error immediately, with exactly one underlying read call in
the trace and no recovery action (no close, no reopen), regardless of the
stored retry budget. -/
theorem C1_read_faults_raise_immediately (st : DeviceState) (a c cause : Nat)
    (data : List Nat) :
    (readRegisters st a c (DriverResult.ok data)).2.2 = Except.ok (some data) ∧
    (readRegisters st a c (DriverResult.ok data)).2.1 = st ∧
    (readRegisters st a c (DriverResult.valueError cause)).2.2 =
      Except.error (ReadError.crcError st.unitId cause) ∧
    (readRegisters st a c (DriverResult.valueError cause)).2.1 = st ∧
    (readRegisters st a c (DriverResult.valueError cause)).1 =
      (if st.serialOpen then [Action.flushInput, Action.flushOutput] else []) ++
        [Action.readCall a c] ∧
    Action.closePort ∉ (readRegisters st a c (DriverResult.valueError cause)).1 ∧
    Action.openPort ∉ (readRegisters st a c (DriverResult.valueError cause)).1 ∧
    (readRegisters st a c (DriverResult.ioError cause)).2.2 =
      Except.error (ReadError.communicationError st.unitId cause) ∧
    (readRegisters st a c (DriverResult.ioError cause)).2.1 = st ∧
    (readRegisters st a c (DriverResult.ioError cause)).1 =
      (if st.serialOpen then [Action.flushInput, Action.flushOutput] else []) ++
        [Action.readCall a c] ∧
    Action.closePort ∉ (readRegisters st a c (DriverResult.ioError cause)).1 ∧
    Action.openPort ∉ (readRegisters st a c (DriverResult.ioError cause)).1 := by
  refine ⟨rfl, rfl, rfl, rfl, rfl, ?_, ?_, rfl, rfl, rfl, ?_, ?_⟩ <;>
    by_cases h : st.serialOpen <;> simp [readRegisters, h]

/-- Claim C2, counterexample: with `retries = 1` and a single attempt
raising an I/O fault, the operation does raise
`CommunicationError(unit_id, cause)`, but it leaves
`communication_error == False` and `total_errors == 0`, not `True` and `1`
as the claim states. -/
theorem C2_counterexample :
    (readRegisters (initState 5 1 true) 0 1 (DriverResult.ioError 7)).2.2 =
      Except.error (ReadError.communicationError 5 7) ∧
    ((readRegisters (initState 5 1 true) 0 1 (DriverResult.ioError 7)).2.1).communicationError
      = false ∧
    ((readRegisters (initState 5 1 true) 0 1 (DriverResult.ioError 7)).2.1).totalErrors = 0 ∧
    ((readRegisters (initState 5 1 true) 0 1 (DriverResult.ioError 7)).2.1).totalErrors ≠ 1 :=
  ⟨rfl, rfl, rfl, by decide⟩

/-- Claim C2 (amended): a faulted logical read fails by raising the
classified error (`CommunicationError` on an I/O fault, `CRCError` on a CRC
fault) carrying the unit id and the underlying cause, and never returns
data; but it leaves `communication_error` and `total_errors` (and all other
device state) unchanged. -/
theorem C2_exhausted_fault_classified_error (st : DeviceState) (a c cause : Nat) :
    (readRegisters st a c (DriverResult.ioError cause)).2.2 =
      Except.error (ReadError.communicationError st.unitId cause) ∧
    (readRegisters st a c (DriverResult.valueError cause)).2.2 =
      Except.error (ReadError.crcError st.unitId cause) ∧
    (∀ d, (readRegisters st a c (DriverResult.ioError cause)).2.2 ≠ Except.ok d) ∧
    (∀ d, (readRegisters st a c (DriverResult.valueError cause)).2.2 ≠ Except.ok d) ∧
    ((readRegisters st a c (DriverResult.ioError cause)).2.1).communicationError =
      st.communicationError ∧
    ((readRegisters st a c (DriverResult.ioError cause)).2.1).totalErrors =
      st.totalErrors ∧
    (readRegisters st a c (DriverResult.ioError cause)).2.1 = st ∧
    (readRegisters st a c (DriverResult.valueError cause)).2.1 = st := by
  refine ⟨rfl, rfl, ?_, ?_, rfl, rfl, rfl, rfl⟩ <;> intro d h <;> cases h

/-- Claim C3: `_read_registers` classifies faults exactly by kind — an
I/O fault yields `CommunicationError(unit_id, cause)`, an integrity
(`ValueError`) fault yields `CRCError(unit_id, cause)`, and a successful
driver call yields its data; no other error kind arises from a faulted
read. -/
theorem C3_fault_classification (st : DeviceState) (a c : Nat)
    (driver : DriverResult) :
    (readRegisters st a c driver).2.2 =
      match driver with
      | DriverResult.ok data => Except.ok (some data)
      | DriverResult.ioError cause =>
          Except.error (ReadError.communicationError st.unitId cause)
      | DriverResult.valueError cause =>
          Except.error (ReadError.crcError st.unitId cause) := by
  cases driver <;> rfl

/-- Claim C4, evaluation at the failing input: the register-derived format
for `wordCount = 1, signed = false` is `"H"`, which carries no byte-order
prefix, so `struct.unpack_from` follows the host's native order: on a
little-endian host the buffer `0x00 0x2A` decodes to `10752`, not the `42`
the claim states; an explicit big-endian format (`">H"`, like the module's
own `'>h'` default in `unpack_registers`) gives the claimed values `42`,
`-1` and `65535`. -/
theorem C4_unpack_format_native_order_eval :
    ModbusRegister.unpackFormat { addr := 0 } = "H" ∧
    structUnpackFrom (ModbusRegister.unpackFormat { addr := 0 })
      ByteOrder.little [0x00, 0x2A] = some 10752 ∧
    structUnpackFrom ">H" ByteOrder.little [0x00, 0x2A] = some 42 ∧
    structUnpackFrom ">h" ByteOrder.little [0xFF, 0xFF] = some (-1) ∧
    structUnpackFrom ">H" ByteOrder.little [0xFF, 0xFF] = some 65535 :=
  ⟨by decide, by decide, by decide, by decide, by decide⟩

/-- Claim C5, counterexample: a failed attempt that reached the underlying
read call leaves `total_errors` at `0` — it is not incremented once per
failed attempt as the claim states — and a successful attempt likewise
leaves `total_reads` at `0`. -/
theorem C5_counterexample :
    ((readRegisters (initState 1 3 true) 0 1 (DriverResult.ioError 9)).2.1).totalErrors = 0 ∧
    ((readRegisters (initState 1 3 true) 0 1 (DriverResult.ioError 9)).2.1).totalErrors ≠ 1 ∧
    ((readRegisters (initState 1 3 true) 0 1 (DriverResult.ok [0, 42])).2.1).totalReads = 0 :=
  ⟨rfl, by decide, rfl⟩

/-- Claim C5 (amended): the read path never modifies `total_reads` or
`total_errors` — both are left exactly at their prior values on every
attempt, successful or failed — so both counters are trivially
monotonically non-decreasing across any sequence of logical reads. -/
theorem C5_counters_unchanged_monotone (st : DeviceState) (a c : Nat)
    (driver : DriverResult) :
    ((readRegisters st a c driver).2.1).totalReads = st.totalReads ∧
    ((readRegisters st a c driver).2.1).totalErrors = st.totalErrors ∧
    st.totalReads ≤ ((readRegisters st a c driver).2.1).totalReads ∧
    st.totalErrors ≤ ((readRegisters st a c driver).2.1).totalErrors := by
  cases driver <;> exact ⟨rfl, rfl, le_refl _, le_refl _⟩

/-- Claim C6: at the start of every logical read, input and output buffers
are flushed (in that order) before the framed request exactly when the
serial channel is open; when it is closed, the trace contains the read call
alone with no flush. -/
theorem C6_flush_on_entry_iff_open (st : DeviceState) (a c : Nat)
    (driver : DriverResult) :
    (readRegisters st a c driver).1 =
      (if st.serialOpen then [Action.flushInput, Action.flushOutput] else []) ++
        [Action.readCall a c] := by
  cases driver <;> rfl

/-- Claim C7: every `reset()` call unconditionally performs, in order:
close the channel, wait `poll_req_interval`, reopen, wait the fixed 100 ms
settle time, flush input, flush output, and then the device-specific reset
hook, which by default contributes nothing. -/
theorem C7_reset_sequence (st : DeviceState) :
    reset st =
      ([Action.logWarning, Action.closePort, Action.sleepPollInterval,
        Action.openPort, Action.sleepSettle100ms, Action.flushInput,
        Action.flushOutput],
       { st with serialOpen := true }) ∧
    resetDevice st = ([], st) := ⟨rfl, rfl⟩

/-- Claim C8: the wire format is determined solely by `size` and `signed`
(for any address and configuration flag): size 1 unsigned ↦ "H", size 1
signed ↦ "h", size 2 unsigned ↦ "I", size 2 signed ↦ "i"; and a descriptor
built with only an address gets the defaults `size = 1, cfgreg = false,
signed = false`. -/
theorem C8_wire_format_and_defaults (a : Nat) (cfg : Bool) :
    ModbusRegister.unpackFormat { addr := a, size := 1, cfgreg := cfg, signed := false } = "H" ∧
    ModbusRegister.unpackFormat { addr := a, size := 1, cfgreg := cfg, signed := true } = "h" ∧
    ModbusRegister.unpackFormat { addr := a, size := 2, cfgreg := cfg, signed := false } = "I" ∧
    ModbusRegister.unpackFormat { addr := a, size := 2, cfgreg := cfg, signed := true } = "i" ∧
    ({ addr := a } : ModbusRegister).size = 1 ∧
    ({ addr := a } : ModbusRegister).cfgreg = false ∧
    ({ addr := a } : ModbusRegister).signed = false := by
  refine ⟨rfl, ?_, rfl, ?_, rfl, rfl, rfl⟩ <;>
    simp [ModbusRegister.unpackFormat, pyLower]

/-- Claim C9, counterexample: `_first_poll` is `True` at construction and
is still `True` after a completed poll attempt, whether the attempt
succeeds or fails — it is never set to `False` as the claim states. -/
theorem C9_counterexample :
    (initState 1 3 true).firstPoll = true ∧
    ((readRegisters (initState 1 3 true) 0 1 (DriverResult.ok [0, 42])).2.1).firstPoll = true ∧
    ((readRegisters (initState 1 3 true) 0 1 (DriverResult.ioError 7)).2.1).firstPoll = true ∧
    ((readRegisters (initState 1 3 true) 0 1 (DriverResult.ok [0, 42])).2.1).firstPoll ≠ false :=
  ⟨rfl, rfl, rfl, by decide⟩

/-- Claim C9 (amended): `_first_poll` is `True` from construction and is
never modified by any operation of this module — reads, `reset` and
`reset_communications` all preserve it; clearing it is left to code outside
this repository. -/
theorem C9_first_poll_never_cleared (st : DeviceState) (u r a c : Nat)
    (so : Bool) (driver : DriverResult) :
    (initState u r so).firstPoll = true ∧
    ((readRegisters st a c driver).2.1).firstPoll = st.firstPoll ∧
    ((reset st).2).firstPoll = st.firstPoll ∧
    ((resetCommunications st).2).firstPoll = st.firstPoll := by
  cases driver <;> exact ⟨rfl, rfl, rfl, rfl⟩

/-- Claim C10: `_read_registers` either returns the driver's buffer or
raises a classified error — it never produces the `None` result its
docstring mentions — so the `HalError('read register failed')` branch of
`unpack_registers` is unreachable for every driver outcome, and on a
faulted read `unpack_registers` yields only the classified errors. -/
theorem C10_no_hal_error (st : DeviceState) (reg : ModbusRegister) (n : Nat)
    (fmt : String) (hostOrder : ByteOrder) (driver : DriverResult) :
    (readRegisters st reg.addr n driver).2.2 ≠ Except.ok none ∧
    (∀ a k, unpackRegisters st reg n fmt hostOrder driver ≠ UnpackResult.halErr a k) ∧
    unpackRegisters st reg n fmt hostOrder driver =
      (match driver with
      | DriverResult.ok data =>
          (match structUnpackFrom fmt hostOrder data with
           | some v => UnpackResult.ok v
           | none => UnpackResult.structErr)
      | DriverResult.ioError cause => UnpackResult.commErr st.unitId cause
      | DriverResult.valueError cause => UnpackResult.crcErr st.unitId cause) := by
  refine ⟨?_, ?_, ?_⟩
  · cases driver <;> intro h <;> cases h
  · intro a k
    cases driver with
    | ok data =>
        have he : unpackRegisters st reg n fmt hostOrder (DriverResult.ok data) =
            (match structUnpackFrom fmt hostOrder data with
             | some v => UnpackResult.ok v
             | none => UnpackResult.structErr) := rfl
        rw [he]
        cases structUnpackFrom fmt hostOrder data
        · exact fun hc => UnpackResult.noConfusion hc
        · exact fun hc => UnpackResult.noConfusion hc
    | ioError cause => exact fun hc => UnpackResult.noConfusion hc
    | valueError cause => exact fun hc => UnpackResult.noConfusion hc
  · cases driver <;> rfl

end ExtModbus
